import Mathlib

/-!
Shallow embedding of the turn-scoped tool-invocation and attachment-aggregation
core of the semantic-kernel chatbot repository, together with theorems checking
its natural-language specification.

Sources embedded:
  * data_models/attachments.py  — Citation, Media, Chart and its three variants
  * data_models/conversation_data.py — ConversationTurn, ConversationData
  * utils.py                    — extract_attachments, get_citations_element,
                                  get_media_element, get_chart_card,
                                  get_expandable_block, get_activity_card
  * agents/chat_completion_agent.py — new_plugin_func (instrumented tool
                                  adapter), process (orchestrator), the
                                  agent_invoke_context ContextVar
  * agents/abstract_agent.py    — AbstractAgent.add_tool
  * tools/math_tools.py         — AddTool

Modelling conventions: Python `datetime` instants are integers counting
microseconds; Python floats that are only carried around (chart data values)
are modelled as integers since no arithmetic is performed on them; a raised
exception is an `Except.error` carrying the exception message; the pydantic
`ChartColor` enum is modelled by its string value.
-/

namespace SkBot

/-- The pydantic `ChartColor` string enum (attachments.py): each member is a
fixed string value; modelled by the value itself. -/
abbrev ChartColor := String

/-- The `x: str | float` field type used by chart data points. Floats are
carried opaquely and modelled as integers. -/
inductive XValue where
  | ofStr (v : String)
  | ofFloat (v : Int)
  deriving DecidableEq, Repr

/-- The `VerticalBarChartDataValue` (attachments.py): `color?`, `x : str | float`,
`y : float`. -/
structure VerticalBarChartDataValue where
  color : Option ChartColor
  x : XValue
  y : Int
  deriving DecidableEq, Repr

/-- The `LineChartDataValue` (attachments.py): `x : str | float`, `y : float`. -/
structure LineChartDataValue where
  x : XValue
  y : Int
  deriving DecidableEq, Repr

/-- The `LineChartData` (attachments.py): one line series with `values`, optional
`color` and `legend`. -/
structure LineChartData where
  values : List LineChartDataValue
  color : Option ChartColor
  legend : Option String
  deriving DecidableEq, Repr

/-- The `PieChartData` (attachments.py): one pie slice with `value`, optional
`color` and `legend`. -/
structure PieChartData where
  value : Int
  color : Option ChartColor
  legend : Option String
  deriving DecidableEq, Repr

/-- The `Chart` pydantic class hierarchy of attachments.py. The base class
`Chart{id, title}` is subclassed by `VerticalBarChart`, `LineChart` and
`PieChart`, each adding its own `data` list. A Python value of static type
`Chart` is either an instance of one of the three subclasses or a plain
base-class instance (or an unknown further subclass); the `base` constructor
covers the latter case. -/
inductive Chart where
  | verticalBar (id title : String) (data : List VerticalBarChartDataValue)
  | line (id title : String) (data : List LineChartData)
  | pie (id title : String) (data : List PieChartData)
  | base (id title : String)
  deriving DecidableEq, Repr

/-- The `id` field shared by every `Chart`. -/
def Chart.id : Chart → String
  | .verticalBar id _ _ => id
  | .line id _ _ => id
  | .pie id _ _ => id
  | .base id _ => id

/-- The `title` field shared by every `Chart`. -/
def Chart.title : Chart → String
  | .verticalBar _ t _ => t
  | .line _ t _ => t
  | .pie _ t _ => t
  | .base _ t => t

/-- The `Citation` (attachments.py): `title`, `url`, `content`, `metadata`.
The `metadata : dict[str, Any]` field is modelled as a string-keyed,
string-valued association list; no code in the repository inspects the
values beyond serializing them. -/
structure Citation where
  title : String
  url : String
  content : String
  metadata : List (String × String)
  deriving DecidableEq, Repr

/-- The `Media` (attachments.py): `content` (URL or base64 string), `mime_type`,
optional `label`. -/
structure Media where
  content : String
  mime_type : String
  label : Option String
  deriving DecidableEq, Repr

/-- The closed family of attachment values that `extract_attachments`
recognises: `Citation`, `Media`, or any `Chart` (utils.py line 31 checks
exactly these three classes with `isinstance`). -/
inductive Attachment where
  | citation (c : Citation)
  | media (m : Media)
  | chart (c : Chart)
  deriving DecidableEq, Repr

mutual

/-- A Python runtime value as traversed by `extract_attachments` (utils.py):
an attachment instance, a `list`, `tuple` or `set` (each an ordered sequence
of values — a fixed iteration order is chosen for sets), a `dict` (ordered
key-value entries, insertion order), or any other object (scalars such as
`None`, booleans, numbers, strings, and unrecognized objects, none of which
are traversed). -/
inductive Py where
  | none
  | bool (b : Bool)
  | int (n : Int)
  | float (v : Int)
  | str (s : String)
  | attach (a : Attachment)
  | list (xs : PyList)
  | tuple (xs : PyList)
  | set (xs : PyList)
  | dict (xs : PyDict)

/-- A sequence of Python values (the elements of a list/tuple/set). -/
inductive PyList where
  | nil
  | cons (head : Py) (tail : PyList)

/-- The entries of a Python dict, in iteration (insertion) order. -/
inductive PyDict where
  | nil
  | cons (key : Py) (value : Py) (tail : PyDict)

end

mutual

/-- The inner `_collect` closure of `extract_attachments` (utils.py lines
30-38), with the mutable `attachments` accumulator made explicit: if the value
is a `Citation`, `Media` or `Chart` instance it is appended; if it is a list,
tuple or set each element is collected in iteration order; if it is a dict
each value (not key) is collected; anything else contributes nothing. -/
def Py.collect : Py → List Attachment → List Attachment
  | .attach a, acc => acc ++ [a]
  | .list xs, acc => PyList.collect xs acc
  | .tuple xs, acc => PyList.collect xs acc
  | .set xs, acc => PyList.collect xs acc
  | .dict xs, acc => PyDict.collect xs acc
  | .none, acc => acc
  | .bool _, acc => acc
  | .int _, acc => acc
  | .float _, acc => acc
  | .str _, acc => acc

/-- The `for item in value: _collect(item)` loop over a sequence. -/
def PyList.collect : PyList → List Attachment → List Attachment
  | .nil, acc => acc
  | .cons x xs, acc => PyList.collect xs (Py.collect x acc)

/-- The `for item in value.values(): _collect(item)` loop over a dict. -/
def PyDict.collect : PyDict → List Attachment → List Attachment
  | .nil, acc => acc
  | .cons _ v xs, acc => PyDict.collect xs (Py.collect v acc)

end

/-- The `extract_attachments` (utils.py lines 17-41): runs `_collect` on the
result starting from an empty accumulator and returns the accumulated flat
list of attachments. -/
def extract_attachments (result : Py) : List Attachment :=
  Py.collect result []

mutual

/-- Modelled from the spec (§4.1 Attachment Harvester traversal rule, used
only to compare with the code): if the value is itself an Attachment variant
yield it; for a list/tuple/set recurse into each element in iteration order;
for a mapping recurse into each value, keys ignored; otherwise yield nothing.
The result is the flat pre-order discovery sequence with no deduplication. -/
def Py.harvestSpec : Py → List Attachment
  | .attach a => [a]
  | .list xs => PyList.harvestSpec xs
  | .tuple xs => PyList.harvestSpec xs
  | .set xs => PyList.harvestSpec xs
  | .dict xs => PyDict.harvestSpec xs
  | .none => []
  | .bool _ => []
  | .int _ => []
  | .float _ => []
  | .str _ => []

/-- Spec-side element-wise harvest of a sequence, concatenated in order. -/
def PyList.harvestSpec : PyList → List Attachment
  | .nil => []
  | .cons x xs => Py.harvestSpec x ++ PyList.harvestSpec xs

/-- Spec-side value-wise harvest of a mapping, concatenated in order. -/
def PyDict.harvestSpec : PyDict → List Attachment
  | .nil => []
  | .cons _ v xs => Py.harvestSpec v ++ PyDict.harvestSpec xs

end

/-- A tool (tools/__init__.py `AbstractTool`): a `name`, a `description` and a
callable `function`. Calls take positional arguments and keyword arguments;
a Python exception raised by the callable is an `Except.error`. Whether the
callable is synchronous or a coroutine only changes how the adapter awaits it
(chat_completion_agent.py lines 174-177), not the produced value, so the model
uses one pure callable. -/
structure Tool where
  name : String
  description : String
  function : List Py → List (String × Py) → Except String Py

/-- One entry of the `tool_usage` list built by `new_plugin_func`
(chat_completion_agent.py lines 182-191): tool name, positional args, keyword
args, result, start time, and the stored duration. The source stores
`start_time.isoformat()`; the model keeps the instant itself (microseconds).
The stored duration is `elapsed_time.microseconds` — see
`timedelta_microseconds`. -/
structure ToolUsageRecord where
  tool_name : String
  args : List Py
  kwargs : List (String × Py)
  result : Py
  start_time : Int
  duration : Int

/-- The dict stored in `agent_invoke_context` by `process`
(chat_completion_agent.py lines 221-226): a `tool_usage` list and an
`attachments` list. -/
structure InvocationCtx where
  tool_usage : List ToolUsageRecord
  attachments : List Attachment

/-- Python's `timedelta.microseconds` attribute for a timedelta of `d` total
microseconds: `timedelta` normalises so that `0 ≤ microseconds < 10^6`
(floor-mod convention, also for negative totals), hence the attribute is the
sub-second microsecond component `d % 10^6`, not the total elapsed time. -/
def timedelta_microseconds (d : Int) : Int :=
  d % 1000000

/-- The instrumented wrapper `new_plugin_func` built by `_build_func`
(chat_completion_agent.py lines 164-197), with times and the
`agent_invoke_context` ContextVar slot passed explicitly: it invokes
`tool.function` with the given args/kwargs (a raised exception propagates
unchanged, before any record is written); it reads the active context
(`agent_invoke_context.get()` raises a LookupError when no context is set);
it appends one record `{tool_name, args, kwargs, result, start_time,
duration = elapsed_time.microseconds}` to `tool_usage`; it runs
`extract_attachments` on the result and, when non-empty, extends the context's
`attachments` with them; and it returns the result unchanged. -/
def new_plugin_func (tool : Tool) (start_time end_time : Int) (args : List Py)
    (kwargs : List (String × Py)) (cv : Option InvocationCtx) :
    Except String Py × Option InvocationCtx :=
  match tool.function args kwargs with
  | .error e => (.error e, cv)
  | .ok resp =>
    match cv with
    | Option.none => (.error "LookupError", Option.none)
    | some ctx =>
      let elapsed_time := end_time - start_time
      let record : ToolUsageRecord :=
        { tool_name := tool.name
          args := args
          kwargs := kwargs
          result := resp
          start_time := start_time
          duration := timedelta_microseconds elapsed_time }
      let ctx1 : InvocationCtx := { ctx with tool_usage := ctx.tool_usage ++ [record] }
      let attachments := extract_attachments resp
      let ctx2 : InvocationCtx :=
        if attachments.isEmpty then ctx1
        else { ctx1 with attachments := ctx1.attachments ++ attachments }
      (.ok resp, some ctx2)

/-- The `ConversationTurn` (conversation_data.py lines 9-19): `role`, `content`,
`created_at` (an instant, modelled in microseconds), `metadata` (the only key
the core writes is `tool_usage`, so the model carries that list directly) and
`attachments`. -/
structure ConversationTurn where
  role : String
  content : String
  created_at : Int
  metadata_tool_usage : List ToolUsageRecord
  attachments : List Attachment

/-- The `ConversationData` (conversation_data.py lines 22-36): a turn history, a
`max_turns` bound and an optional thread id. -/
structure ConversationData where
  thread_id : Option String
  history : List ConversationTurn
  max_turns : Nat

/-- The `ConversationData.add_turn` (conversation_data.py lines 38-45): append the
turn, then, if the resulting length is `>= max_turns`, pop the element at
index 0 once. -/
def add_turn (cd : ConversationData) (turn : ConversationTurn) : ConversationData :=
  let history := cd.history ++ [turn]
  if history.length ≥ cd.max_turns then { cd with history := history.drop 1 }
  else { cd with history := history }

/-- A message of the semantic-kernel `ChatHistory` built inside `process`:
`add_user_message` produces a user-role message, `add_assistant_message` an
assistant-role message; a system-role message could only come from
`add_system_message`, which `process` never calls. -/
inductive ChatMessage where
  | user (content : String)
  | assistant (content : String)
  | system (content : String)
  deriving DecidableEq, Repr

/-- The role string of a `ChatMessage`. -/
def ChatMessage.roleName : ChatMessage → String
  | .user _ => "user"
  | .assistant _ => "assistant"
  | .system _ => "system"

/-- The content of a `ChatMessage`. -/
def ChatMessage.text : ChatMessage → String
  | .user c => c
  | .assistant c => c
  | .system c => c

/-- The history-translation loop of `process` (chat_completion_agent.py lines
228-233): for each turn of the conversation history, if its role is `"user"`
add a user message with its content, otherwise add an assistant message with
its content. -/
def toChatHistory (history : List ConversationTurn) : List ChatMessage :=
  history.map fun message =>
    if message.role = "user" then ChatMessage.user message.content
    else ChatMessage.assistant message.content

/-- The completion black-box (`self._agent.get_response`): given the translated
chat history, it runs with access to the `agent_invoke_context` slot (through
which the instrumented adapters it may call read and write the active
context) and either returns the reply content or raises. -/
abbrev BlackBox := List ChatMessage → Option InvocationCtx →
  Except String String × Option InvocationCtx

/-- The `AbstractChatCompletionAgent.process` (chat_completion_agent.py lines
206-250), with the black-box, the `agent_invoke_context` ContextVar slot and
the clock passed explicitly. Steps, in source order: `token :=
agent_invoke_context.set({tool_usage: [], attachments: []})` (the token holds
the previous value); translate the history; await the black-box; on its
return, `ctx := agent_invoke_context.get()` (raising a LookupError if unset),
`agent_invoke_context.reset(token)`, and build the assistant turn from the
reply content and the context's accumulated lists. There is no try/finally:
when the black-box raises, the exception propagates without any reset, so the
ContextVar keeps whatever value the failed generation left in it. -/
def process (blackBox : BlackBox) (conversation_history : List ConversationTurn)
    (cv : Option InvocationCtx) (now : Int) :
    Except String ConversationTurn × Option InvocationCtx :=
  let token := cv
  let cv1 : Option InvocationCtx := some { tool_usage := [], attachments := [] }
  let history := toChatHistory conversation_history
  match blackBox history cv1 with
  | (.error e, cv2) => (.error e, cv2)
  | (.ok content, cv2) =>
    match cv2 with
    | Option.none => (.error "LookupError", token)
    | some ctx =>
      let turn : ConversationTurn :=
        { role := "assistant"
          content := content
          created_at := now
          metadata_tool_usage := ctx.tool_usage
          attachments := ctx.attachments }
      (.ok turn, token)

/-- The `AddTool` of tools/math_tools.py: name `"Add"`, the documented
description, and the callable `lambda x, y: x + y`. Parameter binding follows
Python: `x` is the first positional argument or the keyword `x`, `y` the
second positional argument or the keyword `y`; the sum is modelled on
integers; anything else raises a TypeError. -/
def addToolFunction (args : List Py) (kwargs : List (String × Py)) : Except String Py :=
  let x := match args[0]? with
    | some v => some v
    | Option.none => (kwargs.lookup "x")
  let y := match args[1]? with
    | some v => some v
    | Option.none => (kwargs.lookup "y")
  match x, y with
  | some (.int a), some (.int b) => .ok (.int (a + b))
  | _, _ => .error "TypeError"

/-- The registered `Add` tool instance (tools/math_tools.py lines 6-10). -/
def addTool : Tool :=
  { name := "Add"
    description := "Add two numbers, such as 6+3"
    function := addToolFunction }

/-- A plain JSON value, the target of pydantic `model_dump(mode="json")` on
chart data records: `null`, a string, a number (floats modelled as integers),
an array, or an object with ordered fields. -/
inductive JsonVal where
  | null
  | str (s : String)
  | num (n : Int)
  | arr (xs : List JsonVal)
  | obj (fields : List (String × JsonVal))

/-- A JSON object: ordered named fields. -/
abbrev JsonObj := List (String × JsonVal)

/-- An optional string (a `ChartColor` or a legend) dumped to JSON: the value
or `null`. -/
def optJson : Option String → JsonVal
  | some s => .str s
  | Option.none => .null

/-- An `x : str | float` value dumped to JSON. -/
def XValue.toJson : XValue → JsonVal
  | .ofStr v => .str v
  | .ofFloat v => .num v

/-- The `model_dump(mode="json")` of a `VerticalBarChartDataValue`: its fields as
a JSON object, the enum color as its string value. -/
def VerticalBarChartDataValue.model_dump (d : VerticalBarChartDataValue) : JsonObj :=
  [("color", optJson d.color), ("x", d.x.toJson), ("y", .num d.y)]

/-- The `model_dump(mode="json")` of a `LineChartDataValue`, as a JSON value
nested inside a series dump. -/
def LineChartDataValue.dumpJson (d : LineChartDataValue) : JsonVal :=
  .obj [("x", d.x.toJson), ("y", .num d.y)]

/-- The `model_dump(mode="json")` of a `LineChartData` series. -/
def LineChartData.model_dump (d : LineChartData) : JsonObj :=
  [("values", .arr (d.values.map LineChartDataValue.dumpJson)),
   ("color", optJson d.color), ("legend", optJson d.legend)]

/-- The `model_dump(mode="json")` of a `PieChartData` slice. -/
def PieChartData.model_dump (d : PieChartData) : JsonObj :=
  [("value", .num d.value), ("color", optJson d.color), ("legend", optJson d.legend)]

/-- The `data` list of the card built by `get_chart_card` (utils.py line 125):
`[data.model_dump(mode="json") for data in chart.data] if chart.data else []`
(an empty `data` list is falsy, so both branches give `[]` there). A base
`Chart` has no `data` attribute; the value is irrelevant because
`get_chart_card` raises before reading it. -/
def Chart.dumpData : Chart → List JsonObj
  | .verticalBar _ _ data => data.map VerticalBarChartDataValue.model_dump
  | .line _ _ data => data.map LineChartData.model_dump
  | .pie _ _ data => data.map PieChartData.model_dump
  | .base _ _ => []

/-- The chart card dict built by `get_chart_card` (utils.py lines 121-126):
`id`, a `type` discriminator string, `title`, and the serialized data list. -/
structure ChartCard where
  id : String
  type : String
  title : String
  data : List JsonObj

/-- The `get_chart_card` (utils.py lines 96-126): pick the `type` discriminator by
`isinstance` — `"Chart.VerticalBar"`, `"Chart.Line"`, `"Chart.Pie"` — leaving
it empty for any other `Chart` value; if it stayed empty raise
`ValueError("Unsupported chart type")`; otherwise return the card dict. -/
def get_chart_card (chart : Chart) : Except String ChartCard :=
  let type := match chart with
    | .verticalBar _ _ _ => "Chart.VerticalBar"
    | .line _ _ _ => "Chart.Line"
    | .pie _ _ _ => "Chart.Pie"
    | .base _ _ => ""
  if type = "" then Except.error "Unsupported chart type"
  else Except.ok { id := chart.id, type := type, title := chart.title, data := chart.dumpData }

/-- The citation element built by `get_citations_element` (utils.py lines
44-70): a text block `[title](url)` and a code block holding
`json.dumps(citation.metadata)` when the metadata dict is non-empty (truthy)
and the empty string otherwise. `json.dumps` is a stdlib call; the model
carries its payload: `none` for the empty-string branch, `some metadata` for
the serialized dict. -/
structure CitationElement where
  text : String
  codeSnippet : Option (List (String × String))

/-- The `get_citations_element` (utils.py lines 44-70). -/
def get_citations_element (citation : Citation) : CitationElement :=
  { text := "[" ++ citation.title ++ "](" ++ citation.url ++ ")"
    codeSnippet := if citation.metadata.isEmpty then Option.none else some citation.metadata }

/-- The media element built by `get_media_element` (utils.py lines 73-93): a
single source with the MIME type, the content as URL, and
`media.label or "Media Attachment"` — Python `or`, so a missing label *and*
an empty-string label both fall back to the placeholder. -/
structure MediaElement where
  mimeType : String
  url : String
  label : String

/-- The `get_media_element` (utils.py lines 73-93). -/
def get_media_element (media : Media) : MediaElement :=
  { mimeType := media.mime_type
    url := media.content
    label := match media.label with
      | some s => if s = "" then "Media Attachment" else s
      | Option.none => "Media Attachment" }

/-- An element inside an expandable block: one rendered citation, media or
chart. (Python keeps these as untyped dicts in one list; the model tags
them.) -/
inductive CardElement where
  | citation (e : CitationElement)
  | media (e : MediaElement)
  | chart (e : ChartCard)

/-- The expandable block built by `get_expandable_block` (utils.py lines
129-220): an `id`, a header `title`, and the wrapped elements inside a
`cardContent` container that starts with `isVisible: False` (collapsed);
the chevron toggle markup is fixed scaffolding determined by `id`. -/
structure ExpandableBlock where
  id : String
  title : String
  elements : List CardElement
  contentInitiallyVisible : Bool

/-- The `get_expandable_block` (utils.py lines 129-220). -/
def get_expandable_block (id title : String) (elements : List CardElement) :
    ExpandableBlock :=
  { id := id, title := title, elements := elements, contentInitiallyVisible := false }

/-- The outbound `Activity` built by `get_activity_card` (utils.py lines
263-267): the message `text` is the turn's content, and `attachments` is
`[adaptive_card(attachments_card)]` when any bucket is non-empty and `None`
otherwise; the model carries the card's `body` (the list of expandable
blocks) as the single attachment. -/
structure Activity where
  text : String
  attachments : Option (List ExpandableBlock)

/-- The dispatch loop of `get_activity_card` (utils.py lines 238-244): iterate
over the turn's attachments; a `Citation` is rendered into the citations
bucket, a `Media` into the media bucket, a `Chart` through `get_chart_card`
into the charts bucket (a `ValueError` raised there propagates, aborting the
whole render at the first unsupported chart). -/
def buildBuckets : List Attachment →
    Except String (List CitationElement × List MediaElement × List ChartCard)
  | [] => .ok ([], [], [])
  | a :: rest =>
    match a with
    | .citation c =>
      match buildBuckets rest with
      | .error e => .error e
      | .ok (cs, ms, chs) => .ok (get_citations_element c :: cs, ms, chs)
    | .media m =>
      match buildBuckets rest with
      | .error e => .error e
      | .ok (cs, ms, chs) => .ok (cs, get_media_element m :: ms, chs)
    | .chart ch =>
      match get_chart_card ch with
      | .error e => .error e
      | .ok card =>
        match buildBuckets rest with
        | .error e => .error e
        | .ok (cs, ms, chs) => .ok (cs, ms, card :: chs)

/-- The `get_activity_card` (utils.py lines 223-267): build the three buckets,
then append one expandable block per non-empty bucket — `"Citations"`,
`"Media"`/`"Media Attachments"`, `"Charts"` in that fixed order — to the card
body, and return an Activity whose text is the turn's content and whose
attachments are the card when any bucket is non-empty, `None` otherwise. -/
def get_activity_card (turn : ConversationTurn) : Except String Activity :=
  match buildBuckets turn.attachments with
  | .error e => .error e
  | .ok (citations, media, charts) =>
    let body :=
      (if citations.isEmpty then []
       else [get_expandable_block "Citations" "Citations" (citations.map CardElement.citation)]) ++
      (if media.isEmpty then []
       else [get_expandable_block "Media" "Media Attachments" (media.map CardElement.media)]) ++
      (if charts.isEmpty then []
       else [get_expandable_block "Charts" "Charts" (charts.map CardElement.chart)])
    .ok { text := turn.content
          attachments :=
            if citations.isEmpty && media.isEmpty && charts.isEmpty then Option.none
            else some body }

/-- The tool-registry state of an `AbstractAgent` (abstract_agent.py): the
agent's name and its `_tools` dict, modelled as an insertion-ordered
association list from tool name to tool, as a Python dict is. -/
structure AgentState where
  name : String
  tools : List (String × Tool)

/-- The `AbstractAgent.add_tool` (abstract_agent.py lines 200-216): if the tool's
name is not a key of `_tools`, insert it (a new dict key is appended at the
end); otherwise raise a `ValueError` and leave `_tools` untouched. The result
pairs the (possibly updated) state with the raised error, if any. -/
def add_tool (agent : AgentState) (tool : Tool) : AgentState × Option String :=
  if (agent.tools.lookup tool.name).isNone then
    ({ agent with tools := agent.tools ++ [(tool.name, tool)] }, Option.none)
  else
    (agent, some ("Tool " ++ tool.name ++ " already exists in agent " ++ agent.name))

/-- Spec-side selector: the `Citation` values of an attachment list, in
order. -/
def citationsOf (atts : List Attachment) : List Citation :=
  atts.filterMap fun a => match a with | .citation c => some c | _ => Option.none

/-- Spec-side selector: the `Media` values of an attachment list, in order. -/
def mediaOf (atts : List Attachment) : List Media :=
  atts.filterMap fun a => match a with | .media m => some m | _ => Option.none

/-- Spec-side selector: the `Chart` values of an attachment list, in order. -/
def chartsOf (atts : List Attachment) : List Chart :=
  atts.filterMap fun a => match a with | .chart c => some c | _ => Option.none

/-- Spec-side: render every chart of a list with `get_chart_card`, failing at
the first unsupported one. -/
def chartCardsOf : List Chart → Except String (List ChartCard)
  | [] => .ok []
  | c :: rest =>
    match get_chart_card c with
    | .error e => .error e
    | .ok card =>
      match chartCardsOf rest with
      | .error e => .error e
      | .ok cards => .ok (card :: cards)

/-- Whether a `Chart` value is one of the three known variants. -/
def Chart.isKnownVariant : Chart → Bool
  | .verticalBar _ _ _ => true
  | .line _ _ _ => true
  | .pie _ _ _ => true
  | .base _ _ => false

/-- A user turn with the given content and no metadata or attachments, used
as a concrete input. -/
def plainTurn (content : String) : ConversationTurn :=
  { role := "user", content := content, created_at := 0
    metadata_tool_usage := [], attachments := [] }

/-- A concrete completion black-box that invokes the instrumented `Add`
adapter exactly once, with keyword arguments `x=2, y=3`, and then produces a
reply; a failure of the adapter propagates. -/
def addOnceBlackBox : BlackBox := fun _ cv =>
  match new_plugin_func addTool 10 15 [] [("x", Py.int 2), ("y", Py.int 3)] cv with
  | (.error e, cv1) => (.error e, cv1)
  | (.ok _, cv1) => (.ok "2 + 3 = 5", cv1)

/-- A concrete completion black-box that raises without touching the
context, modelling `get_response` failing (timeout, cancellation, service
error). -/
def failingBlackBox : BlackBox := fun _ cv =>
  (.error "Connection timeout", cv)

mutual

/-- The accumulator-passing `_collect` equals the accumulator followed by the
pre-order harvest of the value. -/
theorem py_collect_eq_harvest (v : Py) (acc : List Attachment) :
    Py.collect v acc = acc ++ Py.harvestSpec v := by
  cases v with
  | attach a => simp [Py.collect, Py.harvestSpec]
  | list xs => simp [Py.collect, Py.harvestSpec, pyList_collect_eq_harvest]
  | tuple xs => simp [Py.collect, Py.harvestSpec, pyList_collect_eq_harvest]
  | set xs => simp [Py.collect, Py.harvestSpec, pyList_collect_eq_harvest]
  | dict xs => simp [Py.collect, Py.harvestSpec, pyDict_collect_eq_harvest]
  | _ => simp [Py.collect, Py.harvestSpec]

/-- Sequence version of `py_collect_eq_harvest`. -/
theorem pyList_collect_eq_harvest (xs : PyList) (acc : List Attachment) :
    PyList.collect xs acc = acc ++ PyList.harvestSpec xs := by
  cases xs with
  | nil => simp [PyList.collect, PyList.harvestSpec]
  | cons x rest =>
    simp [PyList.collect, PyList.harvestSpec, py_collect_eq_harvest, pyList_collect_eq_harvest]

/-- Dict version of `py_collect_eq_harvest`. -/
theorem pyDict_collect_eq_harvest (xs : PyDict) (acc : List Attachment) :
    PyDict.collect xs acc = acc ++ PyDict.harvestSpec xs := by
  cases xs with
  | nil => simp [PyDict.collect, PyDict.harvestSpec]
  | cons k v rest =>
    simp [PyDict.collect, PyDict.harvestSpec, py_collect_eq_harvest, pyDict_collect_eq_harvest]

end

/-- C1: for every acyclic input value, `extract_attachments` returns exactly
the Attachment instances (Citation, Media, or any Chart variant) contained in
it, in pre-order discovery order, with no deduplication: it coincides with the
spec's pre-order harvest on every value; an Attachment value itself yields one
entry; and an instance reachable twice yields two entries. -/
theorem extract_attachments_preorder :
    (∀ v : Py, extract_attachments v = Py.harvestSpec v) ∧
    (∀ a : Attachment, extract_attachments (Py.attach a) = [a]) ∧
    (∀ a : Attachment,
      extract_attachments
        (Py.list (PyList.cons (Py.attach a) (PyList.cons (Py.attach a) PyList.nil))) = [a, a]) := by
  refine ⟨fun v => ?_, fun a => ?_, fun a => ?_⟩
  · simp [extract_attachments, py_collect_eq_harvest]
  · rfl
  · rfl

/-- C4: starting from an empty history with `max_turns = 3` and adding
T1..T5, `add_turn` leaves the history equal to `[T4, T5]`, not the
`[T3, T4, T5]` the claim (and the method's own docstring, which promises
eviction only once the length *exceeds* `max_turns`) requires: the code pops
as soon as the length *reaches* `max_turns`. -/
theorem add_turn_fifo_off_by_one :
    (List.foldl add_turn { thread_id := Option.none, history := [], max_turns := 3 }
        [plainTurn "T1", plainTurn "T2", plainTurn "T3", plainTurn "T4", plainTurn "T5"]).history
      = [plainTurn "T4", plainTurn "T5"] ∧
    [plainTurn "T4", plainTurn "T5"] ≠ [plainTurn "T3", plainTurn "T4", plainTurn "T5"] := by
  refine ⟨rfl, fun h => ?_⟩
  exact absurd (congrArg List.length h) (by decide)

/-- C7: the duration stored by `new_plugin_func` is
`elapsed_time.microseconds`, the sub-second component of the timedelta, not
the full elapsed time: a call of the `Add` tool that takes 1.5 seconds
(1500000 microseconds) is recorded with `duration = 500000`, which differs
from `now - start_time = 1500000`. -/
theorem tool_duration_not_elapsed :
    (new_plugin_func addTool 0 1500000 [] [("x", Py.int 2), ("y", Py.int 3)]
        (some { tool_usage := [], attachments := [] })).2 =
      some { tool_usage := [{ tool_name := "Add", args := [],
                              kwargs := [("x", Py.int 2), ("y", Py.int 3)],
                              result := Py.int 5, start_time := 0, duration := 500000 }],
             attachments := [] } ∧
    (500000 : Int) ≠ 1500000 - 0 := by
  exact ⟨rfl, by decide⟩

/-- C8 counterexample: a system-role turn is translated by `process` into an
assistant message — it is neither passed through as a system message nor
omitted, so the claim fails as stated. -/
theorem system_turn_becomes_assistant :
    toChatHistory [{ role := "system", content := "be nice", created_at := 0,
                     metadata_tool_usage := [], attachments := [] }]
      = [ChatMessage.assistant "be nice"] ∧
    ChatMessage.assistant "be nice" ≠ ChatMessage.system "be nice" ∧
    toChatHistory [{ role := "system", content := "be nice", created_at := 0,
                     metadata_tool_usage := [], attachments := [] }] ≠ [] := by
  refine ⟨rfl, by decide, by decide⟩

/-- C8 amended: the history translation maps the turn at each position to the
message at the same position, keeping its content; a user-role turn becomes a
user message and every other turn — assistant- and system-role alike — becomes
an assistant message. -/
theorem chat_history_role_translation (history : List ConversationTurn)
    (m : ConversationTurn) (i : Nat) (h : history[i]? = some m) :
    ∃ msg, (toChatHistory history)[i]? = some msg ∧
      msg.text = m.content ∧
      msg.roleName = (if m.role = "user" then "user" else "assistant") := by
  refine ⟨if m.role = "user" then ChatMessage.user m.content
          else ChatMessage.assistant m.content, ?_, ?_, ?_⟩
  · simp [toChatHistory, h]
  · by_cases hr : m.role = "user" <;> simp [hr, ChatMessage.text]
  · by_cases hr : m.role = "user" <;> simp [hr, ChatMessage.roleName]

/-- Witness for `chat_history_role_translation` at a concrete system turn. -/
theorem chat_history_role_translation_witness :
    ([{ role := "system", content := "s", created_at := 0, metadata_tool_usage := [],
        attachments := [] }] : List ConversationTurn)[0]?
      = some { role := "system", content := "s", created_at := 0,
               metadata_tool_usage := [], attachments := [] } ∧
    ∃ msg, (toChatHistory [{ role := "system", content := "s", created_at := 0,
                             metadata_tool_usage := [], attachments := [] }])[0]? = some msg ∧
      msg.text = "s" ∧ msg.roleName = (if "system" = "user" then "user" else "assistant") :=
  ⟨rfl, chat_history_role_translation
    [{ role := "system", content := "s", created_at := 0, metadata_tool_usage := [],
       attachments := [] }]
    { role := "system", content := "s", created_at := 0, metadata_tool_usage := [],
      attachments := [] } 0 rfl⟩

/-- C10: adding a tool whose name is already registered raises a
`ValueError` and leaves the tool dict exactly as it was: the registry state is
unchanged, so the originally registered tool under that name remains intact
and no entry is added or removed. -/
theorem add_tool_duplicate_rejected (agent : AgentState) (tool : Tool)
    (h : (agent.tools.lookup tool.name).isSome) :
    (add_tool agent tool).1 = agent ∧
    (add_tool agent tool).2.isSome ∧
    (add_tool agent tool).1.tools.lookup tool.name = agent.tools.lookup tool.name := by
  have hn : (agent.tools.lookup tool.name).isNone = false := by
    cases hl : agent.tools.lookup tool.name with
    | none => rw [hl] at h; simp at h
    | some t => simp
  simp [add_tool, hn]

/-- C2: for every tool invocation made through the instrumented adapter with
an active context, the adapter returns the callable's result unchanged and
appends exactly one usage record carrying the tool's name, the args, the
kwargs and the result (and extends the attachment list by the harvested
attachments); concretely, a single invocation of `Add` with `x=2, y=3` during
a `process` call returns `5` to the black-box and the returned turn's
metadata holds exactly one record with tool name `"Add"` and result `5`. -/
theorem adapter_records_one_entry (tool : Tool) (ts te : Int) (args : List Py)
    (kwargs : List (String × Py)) (ctx : InvocationCtx) (r : Py)
    (h : tool.function args kwargs = .ok r) :
    new_plugin_func tool ts te args kwargs (some ctx) =
      (.ok r, some ⟨ctx.tool_usage ++
          [⟨tool.name, args, kwargs, r, ts, timedelta_microseconds (te - ts)⟩],
        ctx.attachments ++ extract_attachments r⟩) ∧
    (new_plugin_func addTool 10 15 [] [("x", Py.int 2), ("y", Py.int 3)]
        (some ⟨[], []⟩)).1 = .ok (Py.int 5) ∧
    (process addOnceBlackBox [] Option.none 100).1 =
      .ok ⟨"assistant", "2 + 3 = 5", 100,
        [⟨"Add", [], [("x", Py.int 2), ("y", Py.int 3)], Py.int 5, 10, 5⟩], []⟩ := by
  refine ⟨?_, rfl, rfl⟩
  cases hA : extract_attachments r with
  | nil => simp [new_plugin_func, h, hA]
  | cons b bs => simp [new_plugin_func, h, hA]

/-- Witness for `adapter_records_one_entry`: the `Add` tool called with
`x=2, y=3` on an empty context. -/
theorem adapter_records_one_entry_witness :
    addTool.function [] [("x", Py.int 2), ("y", Py.int 3)] = .ok (Py.int 5) ∧
    new_plugin_func addTool 10 15 [] [("x", Py.int 2), ("y", Py.int 3)]
        (some ⟨[], []⟩) =
      (.ok (Py.int 5), some ⟨[] ++
          [⟨"Add", [], [("x", Py.int 2), ("y", Py.int 3)], Py.int 5, 10,
            timedelta_microseconds (15 - 10)⟩],
        [] ++ extract_attachments (Py.int 5)⟩) :=
  ⟨rfl, (adapter_records_one_entry addTool 10 15 [] [("x", Py.int 2), ("y", Py.int 3)]
    ⟨[], []⟩ (Py.int 5) rfl).1⟩

/-- C6: the `agent_invoke_context` set/reset pair in `process` has no
try/finally around it, so on the exit path where the black-box raises the
context is *not* reset: before this `process` call no context was active
(the ContextVar slot was unset), the black-box raises, the call propagates
the error — and the slot is left holding the turn's fresh context instead of
being restored to unset. -/
theorem process_leaks_context_on_failure :
    process failingBlackBox [] Option.none 0 =
      (.error "Connection timeout", some { tool_usage := [], attachments := [] }) ∧
    (process failingBlackBox [] Option.none 0).2 ≠ Option.none := by
  exact ⟨rfl, by simp [process, failingBlackBox, toChatHistory]⟩

/-- Mapping a function over a list leaves emptiness unchanged. -/
theorem map_isEmpty_eq {α β : Type} (f : α → β) (l : List α) :
    (l.map f).isEmpty = l.isEmpty := by
  cases l <;> simp

/-- Modelled from the spec (§4.5 Turn Renderer, used only to compare with the
code): the attachment container of the rendered document — absent when all
three buckets are empty, otherwise one collapsible section per non-empty
bucket, in the order citations, media, charts, each holding one element per
attachment of that bucket in the bucket's original order. -/
def attachmentSectionsSpec (cits : List Citation) (meds : List Media)
    (chs : List ChartCard) : Option (List ExpandableBlock) :=
  if cits.isEmpty && meds.isEmpty && chs.isEmpty then Option.none
  else some (
    (if cits.isEmpty then []
     else [get_expandable_block "Citations" "Citations"
       ((cits.map get_citations_element).map CardElement.citation)]) ++
    (if meds.isEmpty then []
     else [get_expandable_block "Media" "Media Attachments"
       ((meds.map get_media_element).map CardElement.media)]) ++
    (if chs.isEmpty then []
     else [get_expandable_block "Charts" "Charts" (chs.map CardElement.chart)]))

/-- A successful `buildBuckets` run produces exactly the rendered citations,
media and charts of the attachment list, each bucket in its original relative
order. -/
theorem buildBuckets_ok (atts : List Attachment) (cs : List CitationElement)
    (ms : List MediaElement) (chs : List ChartCard)
    (h : buildBuckets atts = .ok (cs, ms, chs)) :
    cs = (citationsOf atts).map get_citations_element ∧
    ms = (mediaOf atts).map get_media_element ∧
    chartCardsOf (chartsOf atts) = .ok chs := by
  induction atts generalizing cs ms chs with
  | nil =>
    simp [buildBuckets] at h
    obtain ⟨h1, h2, h3⟩ := h
    subst h1; subst h2; subst h3
    simp [citationsOf, mediaOf, chartsOf, chartCardsOf]
  | cons a rest ih =>
    cases a with
    | citation c =>
      cases hrest : buildBuckets rest with
      | error e => simp [buildBuckets, hrest] at h
      | ok triple =>
        obtain ⟨cs', ms', chs'⟩ := triple
        simp [buildBuckets, hrest] at h
        obtain ⟨h1, h2, h3⟩ := h
        obtain ⟨e1, e2, e3⟩ := ih cs' ms' chs' hrest
        subst h1; subst h2; subst h3
        have e3' := e3
        simp only [chartsOf] at e3'
        simp [citationsOf, mediaOf, chartsOf, e1, e2, e3']
    | media m =>
      cases hrest : buildBuckets rest with
      | error e => simp [buildBuckets, hrest] at h
      | ok triple =>
        obtain ⟨cs', ms', chs'⟩ := triple
        simp [buildBuckets, hrest] at h
        obtain ⟨h1, h2, h3⟩ := h
        obtain ⟨e1, e2, e3⟩ := ih cs' ms' chs' hrest
        subst h1; subst h2; subst h3
        have e3' := e3
        simp only [chartsOf] at e3'
        simp [citationsOf, mediaOf, chartsOf, e1, e2, e3']
    | chart ch =>
      cases hcard : get_chart_card ch with
      | error e => simp [buildBuckets, hcard] at h
      | ok card =>
        cases hrest : buildBuckets rest with
        | error e => simp [buildBuckets, hcard, hrest] at h
        | ok triple =>
          obtain ⟨cs', ms', chs'⟩ := triple
          simp [buildBuckets, hcard, hrest] at h
          obtain ⟨h1, h2, h3⟩ := h
          obtain ⟨e1, e2, e3⟩ := ih cs' ms' chs' hrest
          subst h1; subst h2; subst h3
          have e3' := e3
          simp only [chartsOf] at e3'
          simp [citationsOf, mediaOf, chartsOf, chartCardsOf, hcard, e1, e2, e3']

/-- C3: a successful rendering of a turn always carries the turn's text;
when the turn has zero attachments the document has no attachment container
at all; and otherwise the attachment list is partitioned into the citations,
media and chart buckets with each bucket's relative order preserved, with one
collapsible section per non-empty bucket. -/
theorem get_activity_card_partitions (turn : ConversationTurn) (act : Activity)
    (h : get_activity_card turn = .ok act) :
    act.text = turn.content ∧
    (turn.attachments = [] → act.attachments = Option.none) ∧
    ∃ chs, chartCardsOf (chartsOf turn.attachments) = .ok chs ∧
      act.attachments = attachmentSectionsSpec (citationsOf turn.attachments)
        (mediaOf turn.attachments) chs := by
  cases hb : buildBuckets turn.attachments with
  | error e => simp [get_activity_card, hb] at h
  | ok triple =>
    obtain ⟨cs, ms, chs⟩ := triple
    obtain ⟨e1, e2, e3⟩ := buildBuckets_ok turn.attachments cs ms chs hb
    simp [get_activity_card, hb] at h
    subst h
    refine ⟨rfl, ?_, chs, e3, ?_⟩
    · intro hempty
      rw [hempty] at hb
      simp [buildBuckets] at hb
      obtain ⟨h1, h2, h3⟩ := hb
      subst h1; subst h2; subst h3
      rfl
    · show (if cs.isEmpty && ms.isEmpty && chs.isEmpty then Option.none else _) = _
      rw [attachmentSectionsSpec, e1, e2, map_isEmpty_eq, map_isEmpty_eq]
      simp [List.append_assoc]

/-- A concrete turn holding one citation, one media attachment and one pie
chart. -/
def sampleTurn : ConversationTurn :=
  { role := "assistant", content := "hello", created_at := 0
    metadata_tool_usage := []
    attachments := [Attachment.citation ⟨"t", "u", "", []⟩,
      Attachment.media ⟨"http", "image/png", Option.none⟩,
      Attachment.chart (Chart.pie "p1" "Pie" [])] }

/-- The rendered document of `sampleTurn`. -/
def sampleActivity : Activity :=
  { text := "hello"
    attachments := some
      [get_expandable_block "Citations" "Citations"
        [CardElement.citation ⟨"[t](u)", Option.none⟩],
       get_expandable_block "Media" "Media Attachments"
        [CardElement.media ⟨"image/png", "http", "Media Attachment"⟩],
       get_expandable_block "Charts" "Charts"
        [CardElement.chart ⟨"p1", "Chart.Pie", "Pie", []⟩]] }

/-- Witness for `get_activity_card_partitions` at `sampleTurn`. -/
theorem get_activity_card_partitions_witness :
    get_activity_card sampleTurn = .ok sampleActivity ∧
    (sampleActivity.text = sampleTurn.content ∧
     (sampleTurn.attachments = [] → sampleActivity.attachments = Option.none) ∧
     ∃ chs, chartCardsOf (chartsOf sampleTurn.attachments) = .ok chs ∧
       sampleActivity.attachments = attachmentSectionsSpec
         (citationsOf sampleTurn.attachments) (mediaOf sampleTurn.attachments) chs) :=
  ⟨rfl, get_activity_card_partitions sampleTurn sampleActivity rfl⟩

/-- C9: `get_chart_card` succeeds exactly on the three known chart variants
and raises `ValueError("Unsupported chart type")` on any other `Chart` value
(the `UnsupportedChartTypeError` of the specification); for each known
variant the produced block carries the chart's `id`, its `title`, its data
serialized with `model_dump(mode="json")`, and the `type` discriminator
determined by the variant. -/
theorem get_chart_card_variants (c : Chart) :
    ((∃ card, get_chart_card c = .ok card) ↔ c.isKnownVariant = true) ∧
    (∀ id title data, get_chart_card (Chart.verticalBar id title data) =
      .ok ⟨id, "Chart.VerticalBar", title, data.map VerticalBarChartDataValue.model_dump⟩) ∧
    (∀ id title data, get_chart_card (Chart.line id title data) =
      .ok ⟨id, "Chart.Line", title, data.map LineChartData.model_dump⟩) ∧
    (∀ id title data, get_chart_card (Chart.pie id title data) =
      .ok ⟨id, "Chart.Pie", title, data.map PieChartData.model_dump⟩) ∧
    (∀ id title, get_chart_card (Chart.base id title) =
      .error "Unsupported chart type") := by
  refine ⟨?_, fun id title data => rfl, fun id title data => rfl,
    fun id title data => rfl, fun id title => rfl⟩
  cases c <;> simp [get_chart_card, Chart.isKnownVariant, Chart.id, Chart.title, Chart.dumpData]

/-- Witness for `add_tool_duplicate_rejected`: registering `Add` twice. -/
theorem add_tool_duplicate_rejected_witness :
    ((AgentState.mk "math_agent" [("Add", addTool)]).tools.lookup addTool.name).isSome ∧
    (add_tool (AgentState.mk "math_agent" [("Add", addTool)]) addTool).1
      = AgentState.mk "math_agent" [("Add", addTool)] :=
  ⟨rfl, (add_tool_duplicate_rejected (AgentState.mk "math_agent" [("Add", addTool)])
      addTool rfl).1⟩

end SkBot
